import Mathlib

/-!
Shallow embedding of the hedra planar-geometry toolkit (src/main.rs) and
proofs about its specification.  Machine floats are modelled as real
numbers; every Rust panic site (unwrap on an exhausted iterator, unit of
the zero vector, out-of-range array and slice indexing) is modelled as an
explicit error value of type Panic, so fallible operations return
Except Panic.
-/

namespace Hedra

noncomputable section

attribute [local instance] Classical.propDecidable

/-- The fatal conditions of the program.  insufficientVertices models the
unwrap of a None returned by the point traversal, undefinedNormalization
models the panic in Vect::unit, and indexOutOfBounds models an
out-of-range index into the coordinate array or an out-of-range split of
the point slice. -/
inductive Panic where
  | insufficientVertices
  | undefinedNormalization
  | indexOutOfBounds
deriving DecidableEq

/-- A free 2D displacement, from struct Vect. -/
structure Vect where
  x : ℝ
  y : ℝ

/-- A located 2D position, from struct Point. -/
structure Point where
  x : ℝ
  y : ℝ

/-- Vect::is_zero: both components are exactly zero. -/
def Vect.is_zero (v : Vect) : Prop :=
  v.x = 0 ∧ v.y = 0

/-- Vect::dot. -/
def Vect.dot (v w : Vect) : ℝ :=
  v.x * w.x + v.y * w.y

/-- Vect::norm: square root of the dot product with itself. -/
def Vect.norm (v : Vect) : ℝ :=
  Real.sqrt (v.dot v)

/-- Neg for Vect. -/
def Vect.neg (v : Vect) : Vect :=
  ⟨-v.x, -v.y⟩

/-- Mul of f64 and Vect: componentwise scaling. -/
def Vect.smul (k : ℝ) (v : Vect) : Vect :=
  ⟨k * v.x, k * v.y⟩

/-- Mul for Vect, exactly as in the source: the second component is
self.x * rhs.y + self.y * rhs.y (the source text, not the complex
product stated by the spec). -/
def Vect.mul (v w : Vect) : Vect :=
  ⟨v.x * w.x - v.y * w.y, v.x * w.y + v.y * w.y⟩

/-- Div of Vect by f64: componentwise division. -/
def Vect.div (v : Vect) (k : ℝ) : Vect :=
  ⟨v.x / k, v.y / k⟩

/-- Add for Vect. -/
def Vect.add (v w : Vect) : Vect :=
  ⟨v.x + w.x, v.y + w.y⟩

/-- Sub for Vect. -/
def Vect.sub (v w : Vect) : Vect :=
  ⟨v.x - w.x, v.y - w.y⟩

/-- Vect::unit: panics on the zero vector, otherwise divides by the norm. -/
def Vect.unit (v : Vect) : Except Panic Vect :=
  if v.is_zero then .error .undefinedNormalization else .ok (v.div v.norm)

/-- Vect::onto: self.dot(other.unit()) * other.  Propagates the panic of
unit when other is the zero vector. -/
def Vect.onto (v other : Vect) : Except Panic Vect :=
  match other.unit with
  | .error e => .error e
  | .ok u => .ok (Vect.smul (v.dot u) other)

/-- Default for Point: the origin. -/
def Point.default : Point :=
  ⟨0, 0⟩

/-- Add of Point and Vect. -/
def Point.add (p : Point) (v : Vect) : Point :=
  ⟨p.x + v.x, p.y + v.y⟩

/-- Sub of two Points, yielding a Vect. -/
def Point.sub (p q : Point) : Vect :=
  ⟨p.x - q.x, p.y - q.y⟩

/-- Sub of Point and Vect, yielding a Point. -/
def Point.subVect (p : Point) (v : Vect) : Point :=
  ⟨p.x - v.x, p.y - v.y⟩

/-- The borrowed-or-owned point storage of a Polygon, from Cow. -/
inductive Cow where
  | borrowed (l : List Point)
  | owned (l : List Point)

/-- Cow::as_ref, the underlying point list. -/
def Cow.as_ref : Cow → List Point
  | .borrowed l => l
  | .owned l => l

/-- Whether the storage is the owned variant. -/
def Cow.isOwned : Cow → Prop
  | .borrowed _ => False
  | .owned _ => True

/-- The two-slice traversal state, from struct PointIter. -/
structure PointIter where
  first : List Point
  second : List Point

/-- PointIter::next: yield from the first slice, then from the second. -/
def PointIter.next : PointIter → Option (Point × PointIter)
  | ⟨p :: f, s⟩ => some (p, ⟨f, s⟩)
  | ⟨[], p :: s⟩ => some (p, ⟨[], s⟩)
  | ⟨[], []⟩ => none

/-- All points remaining in the traversal, in the order next yields them. -/
def PointIter.toList : PointIter → List Point
  | ⟨p :: f, s⟩ => p :: PointIter.toList ⟨f, s⟩
  | ⟨[], p :: s⟩ => p :: PointIter.toList ⟨[], s⟩
  | ⟨[], []⟩ => []

/-- The concatenation of the two slices of a PointIter. -/
def PointIter.queue (it : PointIter) : List Point :=
  it.first ++ it.second

/-- struct Polygon: a rotation offset plus borrowed-or-owned storage. -/
structure Polygon where
  orientation : ℕ
  points : Cow

/-- Polygon::new: orientation 0 over the given storage. -/
def Polygon.new (points : Cow) : Polygon :=
  ⟨0, points⟩

/-- Polygon::len. -/
def Polygon.len (poly : Polygon) : ℕ :=
  poly.points.as_ref.length

/-- Polygon::points: split_at(orientation) assigns the slice before the
orientation index to the field first and the slice from the orientation
index on to the field second, exactly as the source does.  split_at
panics when the index exceeds the length. -/
def Polygon.pointsIter (poly : Polygon) : Except Panic PointIter :=
  if poly.orientation ≤ poly.len then
    .ok ⟨poly.points.as_ref.take poly.orientation, poly.points.as_ref.drop poly.orientation⟩
  else
    .error .indexOutOfBounds

/-- Mapping a fallible function over a list, modelling the for-loop that
pushes transformed points into the output buffer and propagates panics. -/
def mapExcept (f : Point → Except Panic Point) : List Point → Except Panic (List Point)
  | [] => .ok []
  | p :: l =>
    match f p with
    | .error e => .error e
    | .ok q =>
      match mapExcept f l with
      | .error e => .error e
      | .ok l2 => .ok (q :: l2)

/-- Polygon::flip_rotate: unwraps the first two traversal elements and
maps each later point p to p1 - (p - p0). -/
def Polygon.flip_rotate (poly : Polygon) : Except Panic Polygon :=
  match poly.pointsIter with
  | .error e => .error e
  | .ok it =>
  match it.next with
  | none => .error .insufficientVertices
  | some (p0, it) =>
  match it.next with
  | none => .error .insufficientVertices
  | some (p1, it) =>
    .ok (Polygon.new (Cow.owned
      (p0 :: p1 :: it.toList.map fun p => Point.subVect p1 (Point.sub p p0))))

/-- The body of the flip_reflect loop: v = p - p0, then
p0 - 2 * (v - v.onto(axis)). -/
def reflectStep (p0 : Point) (axis : Vect) (p : Point) : Except Panic Point :=
  match (Point.sub p p0).onto axis with
  | .error e => .error e
  | .ok w => .ok (Point.subVect p0 (Vect.smul 2 ((Point.sub p p0).sub w)))

/-- Polygon::flip_reflect: unwraps the first two traversal elements, sets
axis = p1 - p0 and maps each later point through reflectStep. -/
def Polygon.flip_reflect (poly : Polygon) : Except Panic Polygon :=
  match poly.pointsIter with
  | .error e => .error e
  | .ok it =>
  match it.next with
  | none => .error .insufficientVertices
  | some (p0, it) =>
  match it.next with
  | none => .error .insufficientVertices
  | some (p1, it) =>
  match mapExcept (reflectStep p0 (Point.sub p1 p0)) it.toList with
  | .error e => .error e
  | .ok tail => .ok (Polygon.new (Cow.owned (p0 :: p1 :: tail)))

/-- The 6-coefficient similarity matrix, from struct Matrix. -/
structure Matrix where
  coords : List ℝ

/-- Indexing into the coordinate array; out-of-range indexing panics. -/
def Matrix.idx (m : Matrix) (i : ℕ) : Except Panic ℝ :=
  match m.coords.get? i with
  | some r => .ok r
  | none => .error .indexOutOfBounds

/-- Matrix::identity. -/
def Matrix.identity : Matrix :=
  ⟨[1, 0, 0, 1, 0, 0]⟩

/-- Matrix::translate. -/
def Matrix.translate (v : Vect) : Matrix :=
  ⟨[1, 0, 0, 1, v.x, v.y]⟩

/-- Matrix::rotate_scale. -/
def Matrix.rotate_scale (v : Vect) : Matrix :=
  ⟨[v.x, v.y, -v.y, v.x, 0, 0]⟩

/-- Matrix::v11, reading coords[0]. -/
def Matrix.v11 (m : Matrix) : Except Panic ℝ := m.idx 0

/-- Matrix::v21, reading coords[1]. -/
def Matrix.v21 (m : Matrix) : Except Panic ℝ := m.idx 1

/-- Matrix::v31, the constant 0. -/
def Matrix.v31 : ℝ := 0

/-- Matrix::v12, reading coords[2]. -/
def Matrix.v12 (m : Matrix) : Except Panic ℝ := m.idx 2

/-- Matrix::v22, reading coords[3]. -/
def Matrix.v22 (m : Matrix) : Except Panic ℝ := m.idx 3

/-- Matrix::v32, the constant 0. -/
def Matrix.v32 : ℝ := 0

/-- Matrix::v13, reading coords[4]. -/
def Matrix.v13 (m : Matrix) : Except Panic ℝ := m.idx 4

/-- Matrix::v23, reading coords[6] exactly as the source does, although
the coordinate array has six entries (indices 0 through 5). -/
def Matrix.v23 (m : Matrix) : Except Panic ℝ := m.idx 6

/-- Matrix::v33, the constant 1. -/
def Matrix.v33 : ℝ := 1

/-- Mul for Matrix: the accessor reads of the source, then the new
coordinate array [v11, v21, v12, v22, v13, v23]. -/
def Matrix.mul (m rhs : Matrix) : Except Panic Matrix :=
  Except.bind m.v11 fun a11 =>
  Except.bind rhs.v11 fun b11 =>
  Except.bind m.v21 fun a21 =>
  Except.bind rhs.v12 fun b12 =>
  Except.bind rhs.v21 fun b21 =>
  Except.bind rhs.v22 fun b22 =>
  Except.bind m.v12 fun a12 =>
  Except.bind m.v22 fun a22 =>
  Except.bind m.v13 fun a13 =>
  Except.bind rhs.v13 fun b13 =>
  Except.bind m.v23 fun a23 =>
  Except.bind rhs.v23 fun b23 =>
  Except.ok ⟨[a11 * b11 + a21 * b12, a11 * b21 + a21 * b22,
              a12 * b11 + a22 * b12, a12 * b21 + a22 * b22,
              a13 + b13, a23 + b23]⟩

/-- Mul of a Matrix reference and a Point:
(v11 * x + v12 * y + v13, v21 * x + v22 * y + v23). -/
def Matrix.apply (m : Matrix) (p : Point) : Except Panic Point :=
  Except.bind m.v11 fun a11 =>
  Except.bind m.v12 fun a12 =>
  Except.bind m.v13 fun a13 =>
  Except.bind m.v21 fun a21 =>
  Except.bind m.v22 fun a22 =>
  Except.bind m.v23 fun a23 =>
  Except.ok ⟨a11 * p.x + a12 * p.y + a13, a21 * p.x + a22 * p.y + a23⟩

/-- Polygon::reorient: unwraps three traversal elements, builds
t1 = translate(origin - p1), r = rotate_scale(unit(-(p1-p0) * (p2-p1))),
t0 = translate(p0 - origin), composes t = (t0 * r) * t1 and applies t to
every vertex. -/
def Polygon.reorient (poly : Polygon) : Except Panic Polygon :=
  match poly.pointsIter with
  | .error e => .error e
  | .ok it =>
  match it.next with
  | none => .error .insufficientVertices
  | some (p0, it) =>
  match it.next with
  | none => .error .insufficientVertices
  | some (p1, it) =>
  match it.next with
  | none => .error .insufficientVertices
  | some (p2, it) =>
  let t1 := Matrix.translate (Point.sub Point.default p1)
  match (Vect.mul (Point.sub p1 p0).neg (Point.sub p2 p1)).unit with
  | .error e => .error e
  | .ok u =>
  let r := Matrix.rotate_scale u
  let t0 := Matrix.translate (Point.sub p0 Point.default)
  match t0.mul r with
  | .error e => .error e
  | .ok t0r =>
  match t0r.mul t1 with
  | .error e => .error e
  | .ok t =>
  match t.apply p0 with
  | .error e => .error e
  | .ok q0 =>
  match t.apply p1 with
  | .error e => .error e
  | .ok q1 =>
  match t.apply p2 with
  | .error e => .error e
  | .ok q2 =>
  match mapExcept (fun p => t.apply p) it.toList with
  | .error e => .error e
  | .ok tail => .ok (Polygon.new (Cow.owned (q0 :: q1 :: q2 :: tail)))

/-- Whether an Except value is a success. -/
def exOk {α : Type} : Except Panic α → Bool
  | .ok _ => true
  | .error _ => false

/-- The full yield sequence of the points() traversal of a polygon. -/
def pointsList (poly : Polygon) : Except Panic (List Point) :=
  match poly.pointsIter with
  | .error e => .error e
  | .ok it => .ok it.toList

/-- The success value of onto for a nonzero axis:
dot(v, axis / norm(axis)) * axis. -/
def ontoVal (v axis : Vect) : Vect :=
  Vect.smul (v.dot (axis.div axis.norm)) axis

/-- The success value of the flip_reflect loop body for a nonzero axis. -/
def reflectVal (p0 : Point) (axis : Vect) (p : Point) : Point :=
  Point.subVect p0 (Vect.smul 2 ((Point.sub p p0).sub (ontoVal (Point.sub p p0) axis)))

/-- flip_reflect applied twice in sequence, propagating failure. -/
def flipReflectTwice (poly : Polygon) : Except Panic Polygon :=
  match poly.flip_reflect with
  | .error e => .error e
  | .ok q => q.flip_reflect

/-- Applying the composition a * b to a point, propagating failure. -/
def composeApply (a b : Matrix) (p : Point) : Except Panic Point :=
  match a.mul b with
  | .error e => .error e
  | .ok m => m.apply p

/-- Applying b to a point and then a to the result, propagating failure. -/
def applyApply (a b : Matrix) (p : Point) : Except Panic Point :=
  match b.apply p with
  | .error e => .error e
  | .ok q => a.apply q

/-- A two-vertex polygon with orientation 1. -/
def twoShifted : Polygon :=
  ⟨1, Cow.owned [⟨0, 0⟩, ⟨1, 0⟩]⟩

/-- A single-vertex polygon. -/
def oneVertex : Polygon :=
  Polygon.new (Cow.owned [⟨0, 0⟩])

/-- The right triangle (0,0), (1,0), (1,1) with orientation 0. -/
def tri : Polygon :=
  Polygon.new (Cow.owned [⟨0, 0⟩, ⟨1, 0⟩, ⟨1, 1⟩])

/-- The unit square (0,0), (1,0), (1,1), (0,1) with orientation 0. -/
def unitSquare : Polygon :=
  Polygon.new (Cow.owned [⟨0, 0⟩, ⟨1, 0⟩, ⟨1, 1⟩, ⟨0, 1⟩])

lemma PointIter.toList_mk (f s : List Point) : (PointIter.mk f s).toList = f ++ s := by
  induction f with
  | nil =>
    induction s with
    | nil => simp [PointIter.toList]
    | cons p s ih => simp only [PointIter.toList, ih, List.nil_append]
  | cons p f ih => simp only [PointIter.toList, ih, List.cons_append]

lemma PointIter.toList_queue (it : PointIter) : it.toList = it.queue := by
  obtain ⟨f, s⟩ := it
  exact PointIter.toList_mk f s

lemma PointIter.next_none (it : PointIter) (h : it.queue = []) : it.next = none := by
  obtain ⟨f, s⟩ := it
  simp only [PointIter.queue, List.append_eq_nil] at h
  obtain ⟨rfl, rfl⟩ := h
  rfl

lemma PointIter.next_of_queue (it : PointIter) (p : Point) (l : List Point)
    (h : it.queue = p :: l) :
    ∃ it2 : PointIter, it.next = some (p, it2) ∧ it2.queue = l := by
  obtain ⟨f, s⟩ := it
  cases f with
  | nil =>
    cases s with
    | nil => simp [PointIter.queue] at h
    | cons a s =>
      simp only [PointIter.queue, List.nil_append, List.cons.injEq] at h
      obtain ⟨rfl, rfl⟩ := h
      exact ⟨⟨[], s⟩, rfl, by simp [PointIter.queue]⟩
  | cons a f =>
    simp only [PointIter.queue, List.cons_append, List.cons.injEq] at h
    obtain ⟨rfl, h2⟩ := h
    exact ⟨⟨f, s⟩, rfl, h2⟩

lemma mapExcept_ok_of (f : Point → Except Panic Point) (g : Point → Point)
    (l : List Point) (h : ∀ p ∈ l, f p = .ok (g p)) :
    mapExcept f l = .ok (l.map g) := by
  induction l with
  | nil => rfl
  | cons p l ih =>
    simp only [mapExcept, h p (by simp), ih fun q hq => h q (by simp [hq]), List.map_cons]

lemma mapExcept_ok_length (f : Point → Except Panic Point) (l : List Point)
    (l2 : List Point) (h : mapExcept f l = .ok l2) : l2.length = l.length := by
  induction l generalizing l2 with
  | nil =>
    simp only [mapExcept, Except.ok.injEq] at h
    subst h
    rfl
  | cons p l ih =>
    simp only [mapExcept] at h
    cases hf : f p with
    | error e => rw [hf] at h; exact absurd h (by simp)
    | ok q =>
      rw [hf] at h
      cases hm : mapExcept f l with
      | error e => rw [hm] at h; exact absurd h (by simp)
      | ok l3 =>
        rw [hm] at h
        simp only [Except.ok.injEq] at h
        subst h
        simp [ih l3 hm]

lemma mapExcept_error_eq (f : Point → Except Panic Point) (l : List Point)
    (e : Panic) (h : mapExcept f l = .error e) : ∃ p ∈ l, f p = .error e := by
  induction l with
  | nil => simp [mapExcept] at h
  | cons p l ih =>
    simp only [mapExcept] at h
    cases hf : f p with
    | error e2 =>
      rw [hf] at h
      simp only [Except.error.injEq] at h
      subst h
      exact ⟨p, by simp, hf⟩
    | ok q =>
      rw [hf] at h
      cases hm : mapExcept f l with
      | error e2 =>
        rw [hm] at h
        simp only [Except.error.injEq] at h
        subst h
        obtain ⟨q2, hq2, hfq2⟩ := ih hm
        exact ⟨q2, by simp [hq2], hfq2⟩
      | ok l3 => rw [hm] at h; exact absurd h (by simp)

lemma unit_ok (v : Vect) (h : ¬ v.is_zero) : v.unit = .ok (v.div v.norm) := by
  simp only [Vect.unit, if_neg h]

lemma unit_error_eq (v : Vect) (e : Panic) (h : v.unit = .error e) :
    e = .undefinedNormalization := by
  by_cases hz : v.is_zero
  · simp only [Vect.unit, if_pos hz, Except.error.injEq] at h
    exact h.symm
  · simp [Vect.unit, if_neg hz] at h

lemma onto_ok (v axis : Vect) (h : ¬ axis.is_zero) :
    v.onto axis = .ok (ontoVal v axis) := by
  simp only [Vect.onto, unit_ok axis h, ontoVal]

lemma reflectStep_ok (p0 : Point) (axis : Vect) (p : Point) (h : ¬ axis.is_zero) :
    reflectStep p0 axis p = .ok (reflectVal p0 axis p) := by
  simp only [reflectStep, onto_ok _ axis h, reflectVal]

lemma reflectStep_error_eq (p0 : Point) (axis : Vect) (p : Point) (e : Panic)
    (h : reflectStep p0 axis p = .error e) : e = .undefinedNormalization := by
  by_cases hz : axis.is_zero
  · simp only [reflectStep, Vect.onto, Vect.unit, if_pos hz, Except.error.injEq] at h
    exact h.symm
  · simp [reflectStep_ok p0 axis p hz] at h

lemma pointsIter_ok (poly : Polygon) (h : poly.orientation ≤ poly.len) :
    poly.pointsIter = .ok ⟨poly.points.as_ref.take poly.orientation,
      poly.points.as_ref.drop poly.orientation⟩ := by
  simp only [Polygon.pointsIter, if_pos h]

lemma pointsIter_queue (poly : Polygon) :
    (PointIter.mk (poly.points.as_ref.take poly.orientation)
      (poly.points.as_ref.drop poly.orientation)).queue = poly.points.as_ref := by
  simp [PointIter.queue]

lemma mul_translate_rotate (w u : Vect) :
    (Matrix.translate w).mul (Matrix.rotate_scale u) = .error .indexOutOfBounds := rfl

lemma flip_rotate_eq (poly : Polygon) (p0 p1 : Point) (tail : List Point)
    (h : poly.orientation ≤ poly.len) (hs : poly.points.as_ref = p0 :: p1 :: tail) :
    poly.flip_rotate = .ok (Polygon.new (Cow.owned
      (p0 :: p1 :: tail.map fun p => Point.subVect p1 (Point.sub p p0)))) := by
  have hq : (PointIter.mk (poly.points.as_ref.take poly.orientation)
      (poly.points.as_ref.drop poly.orientation)).queue = p0 :: p1 :: tail := by
    rw [pointsIter_queue, hs]
  obtain ⟨it1, hn1, hq1⟩ := PointIter.next_of_queue _ _ _ hq
  obtain ⟨it2, hn2, hq2⟩ := PointIter.next_of_queue _ _ _ hq1
  simp only [Polygon.flip_rotate, pointsIter_ok poly h, hn1, hn2,
    PointIter.toList_queue, hq2]

lemma flip_reflect_red (poly : Polygon) (p0 p1 : Point) (tail : List Point)
    (h : poly.orientation ≤ poly.len) (hs : poly.points.as_ref = p0 :: p1 :: tail) :
    poly.flip_reflect =
      match mapExcept (reflectStep p0 (Point.sub p1 p0)) tail with
      | .error e => .error e
      | .ok tl => .ok (Polygon.new (Cow.owned (p0 :: p1 :: tl))) := by
  have hq : (PointIter.mk (poly.points.as_ref.take poly.orientation)
      (poly.points.as_ref.drop poly.orientation)).queue = p0 :: p1 :: tail := by
    rw [pointsIter_queue, hs]
  obtain ⟨it1, hn1, hq1⟩ := PointIter.next_of_queue _ _ _ hq
  obtain ⟨it2, hn2, hq2⟩ := PointIter.next_of_queue _ _ _ hq1
  simp only [Polygon.flip_reflect, pointsIter_ok poly h, hn1, hn2,
    PointIter.toList_queue, hq2]

lemma flip_reflect_eq (poly : Polygon) (p0 p1 : Point) (tail : List Point)
    (h : poly.orientation ≤ poly.len) (hs : poly.points.as_ref = p0 :: p1 :: tail)
    (hax : ¬ (Point.sub p1 p0).is_zero) :
    poly.flip_reflect = .ok (Polygon.new (Cow.owned
      (p0 :: p1 :: tail.map (reflectVal p0 (Point.sub p1 p0))))) := by
  rw [flip_reflect_red poly p0 p1 tail h hs,
    mapExcept_ok_of _ (reflectVal p0 (Point.sub p1 p0)) tail
      fun p _ => reflectStep_ok p0 (Point.sub p1 p0) p hax]

lemma reorient_error_unit_zero (poly : Polygon) (p0 p1 p2 : Point) (tail : List Point)
    (h : poly.orientation ≤ poly.len)
    (hs : poly.points.as_ref = p0 :: p1 :: p2 :: tail)
    (hz : (Vect.mul (Point.sub p1 p0).neg (Point.sub p2 p1)).is_zero) :
    poly.reorient = .error .undefinedNormalization := by
  have hq : (PointIter.mk (poly.points.as_ref.take poly.orientation)
      (poly.points.as_ref.drop poly.orientation)).queue = p0 :: p1 :: p2 :: tail := by
    rw [pointsIter_queue, hs]
  obtain ⟨it1, hn1, hq1⟩ := PointIter.next_of_queue _ _ _ hq
  obtain ⟨it2, hn2, hq2⟩ := PointIter.next_of_queue _ _ _ hq1
  obtain ⟨it3, hn3, hq3⟩ := PointIter.next_of_queue _ _ _ hq2
  simp only [Polygon.reorient, pointsIter_ok poly h, hn1, hn2, hn3,
    Vect.unit, if_pos hz]

lemma reorient_error_oob (poly : Polygon) (p0 p1 p2 : Point) (tail : List Point)
    (h : poly.orientation ≤ poly.len)
    (hs : poly.points.as_ref = p0 :: p1 :: p2 :: tail)
    (hz : ¬ (Vect.mul (Point.sub p1 p0).neg (Point.sub p2 p1)).is_zero) :
    poly.reorient = .error .indexOutOfBounds := by
  have hq : (PointIter.mk (poly.points.as_ref.take poly.orientation)
      (poly.points.as_ref.drop poly.orientation)).queue = p0 :: p1 :: p2 :: tail := by
    rw [pointsIter_queue, hs]
  obtain ⟨it1, hn1, hq1⟩ := PointIter.next_of_queue _ _ _ hq
  obtain ⟨it2, hn2, hq2⟩ := PointIter.next_of_queue _ _ _ hq1
  obtain ⟨it3, hn3, hq3⟩ := PointIter.next_of_queue _ _ _ hq2
  simp only [Polygon.reorient, pointsIter_ok poly h, hn1, hn2, hn3,
    Vect.unit, if_neg hz, mul_translate_rotate]

lemma flip_rotate_short (poly : Polygon) (h : poly.orientation ≤ poly.len)
    (hl : poly.len < 2) : poly.flip_rotate = .error .insufficientVertices := by
  have hq := pointsIter_queue poly
  cases hs : poly.points.as_ref with
  | nil =>
    rw [hs] at hq
    simp only [Polygon.flip_rotate, pointsIter_ok poly h, hs, PointIter.next_none _ hq]
  | cons p l =>
    cases l with
    | nil =>
      rw [hs] at hq
      obtain ⟨it1, hn1, hq1⟩ := PointIter.next_of_queue _ _ _ hq
      simp only [Polygon.flip_rotate, pointsIter_ok poly h, hs, hn1,
        PointIter.next_none _ hq1]
    | cons q l2 =>
      rw [Polygon.len, hs] at hl
      simp at hl
      omega

lemma flip_reflect_short (poly : Polygon) (h : poly.orientation ≤ poly.len)
    (hl : poly.len < 2) : poly.flip_reflect = .error .insufficientVertices := by
  have hq := pointsIter_queue poly
  cases hs : poly.points.as_ref with
  | nil =>
    rw [hs] at hq
    simp only [Polygon.flip_reflect, pointsIter_ok poly h, hs, PointIter.next_none _ hq]
  | cons p l =>
    cases l with
    | nil =>
      rw [hs] at hq
      obtain ⟨it1, hn1, hq1⟩ := PointIter.next_of_queue _ _ _ hq
      simp only [Polygon.flip_reflect, pointsIter_ok poly h, hs, hn1,
        PointIter.next_none _ hq1]
    | cons q l2 =>
      rw [Polygon.len, hs] at hl
      simp at hl
      omega

lemma reorient_short (poly : Polygon) (h : poly.orientation ≤ poly.len)
    (hl : poly.len < 3) : poly.reorient = .error .insufficientVertices := by
  have hq := pointsIter_queue poly
  cases hs : poly.points.as_ref with
  | nil =>
    rw [hs] at hq
    simp only [Polygon.reorient, pointsIter_ok poly h, hs, PointIter.next_none _ hq]
  | cons p l =>
    cases l with
    | nil =>
      rw [hs] at hq
      obtain ⟨it1, hn1, hq1⟩ := PointIter.next_of_queue _ _ _ hq
      simp only [Polygon.reorient, pointsIter_ok poly h, hs, hn1,
        PointIter.next_none _ hq1]
    | cons q l2 =>
      cases l2 with
      | nil =>
        rw [hs] at hq
        obtain ⟨it1, hn1, hq1⟩ := PointIter.next_of_queue _ _ _ hq
        obtain ⟨it2, hn2, hq2⟩ := PointIter.next_of_queue _ _ _ hq1
        simp only [Polygon.reorient, pointsIter_ok poly h, hs, hn1, hn2,
          PointIter.next_none _ hq2]
      | cons r l3 =>
        rw [Polygon.len, hs] at hl
        simp at hl
        omega

lemma list_two (l : List Point) (h : 2 ≤ l.length) :
    ∃ a b t, l = a :: b :: t := by
  cases l with
  | nil => simp at h
  | cons a l =>
    cases l with
    | nil => simp at h
    | cons b t => exact ⟨a, b, t, rfl⟩

lemma list_three (l : List Point) (h : 3 ≤ l.length) :
    ∃ a b c t, l = a :: b :: c :: t := by
  cases l with
  | nil => simp at h
  | cons a l =>
    cases l with
    | nil => simp at h
    | cons b l2 =>
      cases l2 with
      | nil => simp at h
      | cons c t => exact ⟨a, b, c, t, rfl⟩

/-- C1: the spec claims the points() traversal starts at storage index
orientation and wraps; the source hands the slice before the orientation
index to the first field of the iterator, so the traversal yields the
storage in plain order and ignores the orientation.  At the failing input
(storage [(0,0), (1,0)], orientation 1) the code yields [(0,0), (1,0)]
although the claim requires [(1,0), (0,0)]. -/
theorem c1_traversal_ignores_orientation :
    pointsList twoShifted = .ok [⟨0, 0⟩, ⟨1, 0⟩] ∧
      ([⟨0, 0⟩, ⟨1, 0⟩] : List Point) ≠ [⟨1, 0⟩, ⟨0, 0⟩] := by
  constructor
  · simp [pointsList, Polygon.pointsIter, Polygon.len, twoShifted, Cow.as_ref,
      PointIter.toList_mk]
  · intro hcontra
    simp only [List.cons.injEq, Point.mk.injEq] at hcontra
    norm_num at hcontra

/-- C2: applying a matrix to a point panics, because the accessor v23
reads coords[6] of the six-entry coordinate array; it never returns the
formula of the claim.  Shown at the identity matrix and the origin. -/
theorem c2_apply_reads_out_of_bounds :
    Matrix.apply Matrix.identity ⟨0, 0⟩ = .error .indexOutOfBounds := rfl

/-- C3: the vector product of the source at a = (0,1), b = (1,0) is
(0, 0); the complex product stated by the claim is
(x1 x2 - y1 y2, x1 y2 + x2 y1) = (0, 1).  The second component of the
source multiplies self.y by rhs.y instead of rhs.x. -/
theorem c3_mul_is_not_complex_product :
    Vect.mul ⟨0, 1⟩ ⟨1, 0⟩ = ⟨0, 0⟩ ∧ (Vect.mk 0 0) ≠ ⟨0, 1⟩ := by
  constructor
  · simp only [Vect.mul, Vect.mk.injEq]
    norm_num
  · intro hcontra
    simp only [Vect.mk.injEq] at hcontra
    norm_num at hcontra

/-- C4 counterexample: at A = B = identity and p = (0,0), neither
applying the composition A * B to p nor applying B and then A yields any
point: both sides panic, so they do not yield the same point as the
claim states. -/
theorem c4_no_point_is_yielded :
    exOk (composeApply Matrix.identity Matrix.identity ⟨0, 0⟩) = false ∧
      exOk (applyApply Matrix.identity Matrix.identity ⟨0, 0⟩) = false :=
  ⟨rfl, rfl⟩

/-- C4 amended: for every pair of matrices with six stored coefficients
and every point, both evaluation orders fail with the index-out-of-bounds
panic raised by the accessor v23, which reads coords[6]. -/
theorem c4_both_orders_panic (a b c d e f g h i j k l : ℝ) (p : Point) :
    composeApply ⟨[a, b, c, d, e, f]⟩ ⟨[g, h, i, j, k, l]⟩ p
        = .error .indexOutOfBounds ∧
      applyApply ⟨[a, b, c, d, e, f]⟩ ⟨[g, h, i, j, k, l]⟩ p
        = .error .indexOutOfBounds :=
  ⟨rfl, rfl⟩

/-- C5 counterexample: reorient on the unit square does not succeed. -/
theorem c5_reorient_square_no_success :
    exOk (Polygon.reorient unitSquare) = false := by
  rw [reorient_error_oob unitSquare ⟨0, 0⟩ ⟨1, 0⟩ ⟨1, 1⟩ [⟨0, 1⟩]
    (by simp [unitSquare, Polygon.new, Polygon.len, Cow.as_ref]) rfl
    (by norm_num [Vect.mul, Vect.neg, Vect.is_zero, Point.sub])]
  rfl

/-- C5 amended: reorient on the unit square fails with the
index-out-of-bounds panic: the matrix composition reads coords[6] through
the accessor v23. -/
theorem c5_reorient_square_panics :
    Polygon.reorient unitSquare = .error .indexOutOfBounds :=
  reorient_error_oob unitSquare ⟨0, 0⟩ ⟨1, 0⟩ ⟨1, 1⟩ [⟨0, 1⟩]
    (by simp [unitSquare, Polygon.new, Polygon.len, Cow.as_ref]) rfl
    (by norm_num [Vect.mul, Vect.neg, Vect.is_zero, Point.sub])

/-- C8: unit fails with the UndefinedNormalization condition exactly when
both components are zero, and on every other vector succeeds with the
vector divided by its norm. -/
theorem c8_unit_total_spec (v : Vect) :
    (v.unit = .error .undefinedNormalization ↔ v.x = 0 ∧ v.y = 0) ∧
      (¬(v.x = 0 ∧ v.y = 0) → v.unit = .ok (v.div v.norm)) := by
  constructor
  · constructor
    · intro h
      by_cases hz : v.is_zero
      · exact hz
      · rw [unit_ok v hz] at h
        exact absurd h (by simp)
    · intro h
      simp only [Vect.unit, if_pos (show v.is_zero from h)]
  · exact fun h => unit_ok v h

/-- C8 witness: the zero vector fails, the vector (3,4) succeeds. -/
theorem c8_unit_total_spec_witness :
    Vect.unit ⟨0, 0⟩ = .error .undefinedNormalization ∧
      Vect.unit ⟨3, 4⟩ = .ok (Vect.div ⟨3, 4⟩ (Vect.norm ⟨3, 4⟩)) :=
  ⟨(c8_unit_total_spec ⟨0, 0⟩).1.mpr ⟨rfl, rfl⟩,
    (c8_unit_total_spec ⟨3, 4⟩).2 (by norm_num)⟩

/-- C9: with the orientation invariant, flip_rotate and flip_reflect fail
with InsufficientVertices on every polygon with fewer than 2 vertices and
reorient on every polygon with fewer than 3; at or above the minimum the
vertex extraction never raises InsufficientVertices. -/
theorem c9_insufficient_vertices (poly : Polygon) (h : poly.orientation ≤ poly.len) :
    (poly.len < 2 →
      poly.flip_rotate = .error .insufficientVertices ∧
        poly.flip_reflect = .error .insufficientVertices) ∧
      (2 ≤ poly.len →
        poly.flip_rotate ≠ .error .insufficientVertices ∧
          poly.flip_reflect ≠ .error .insufficientVertices) ∧
      (poly.len < 3 → poly.reorient = .error .insufficientVertices) ∧
      (3 ≤ poly.len → poly.reorient ≠ .error .insufficientVertices) := by
  refine ⟨fun hl => ⟨flip_rotate_short poly h hl, flip_reflect_short poly h hl⟩,
    ?_, fun hl => reorient_short poly h hl, ?_⟩
  · intro hl
    obtain ⟨p0, p1, tail, hs⟩ := list_two poly.points.as_ref (by rwa [Polygon.len] at hl)
    constructor
    · rw [flip_rotate_eq poly p0 p1 tail h hs]
      simp
    · rw [flip_reflect_red poly p0 p1 tail h hs]
      cases hm : mapExcept (reflectStep p0 (Point.sub p1 p0)) tail with
      | ok tl => simp
      | error e =>
        obtain ⟨p, _, hfp⟩ := mapExcept_error_eq _ _ _ hm
        have he := reflectStep_error_eq p0 (Point.sub p1 p0) p e hfp
        subst he
        simp
  · intro hl
    obtain ⟨p0, p1, p2, tail, hs⟩ :=
      list_three poly.points.as_ref (by rwa [Polygon.len] at hl)
    by_cases hz : (Vect.mul (Point.sub p1 p0).neg (Point.sub p2 p1)).is_zero
    · rw [reorient_error_unit_zero poly p0 p1 p2 tail h hs hz]
      simp
    · rw [reorient_error_oob poly p0 p1 p2 tail h hs hz]
      simp

/-- C9 witness: at the one-vertex polygon all three operations raise
InsufficientVertices. -/
theorem c9_insufficient_vertices_witness :
    Polygon.flip_rotate oneVertex = .error .insufficientVertices ∧
      Polygon.flip_reflect oneVertex = .error .insufficientVertices ∧
      Polygon.reorient oneVertex = .error .insufficientVertices := by
  have h : oneVertex.orientation ≤ oneVertex.len := by
    simp [oneVertex, Polygon.new, Polygon.len, Cow.as_ref]
  have h2 : oneVertex.len < 2 := by
    simp [oneVertex, Polygon.new, Polygon.len, Cow.as_ref]
  have h3 : oneVertex.len < 3 := by
    simp [oneVertex, Polygon.new, Polygon.len, Cow.as_ref]
  exact ⟨((c9_insufficient_vertices oneVertex h).1 h2).1,
    ((c9_insufficient_vertices oneVertex h).1 h2).2,
    (c9_insufficient_vertices oneVertex h).2.2.1 h3⟩

/-- C10: every canonicalization operation that succeeds returns a polygon
with orientation 0, the same vertex count, and owned storage. -/
theorem c10_success_invariants (poly q : Polygon) (h : poly.orientation ≤ poly.len) :
    (poly.flip_rotate = .ok q →
      q.orientation = 0 ∧ q.len = poly.len ∧ q.points.isOwned) ∧
      (poly.flip_reflect = .ok q →
        q.orientation = 0 ∧ q.len = poly.len ∧ q.points.isOwned) ∧
      (poly.reorient = .ok q →
        q.orientation = 0 ∧ q.len = poly.len ∧ q.points.isOwned) := by
  refine ⟨?_, ?_, ?_⟩
  · intro hok
    by_cases hl : poly.len < 2
    · rw [flip_rotate_short poly h hl] at hok
      exact absurd hok (by simp)
    · push_neg at hl
      obtain ⟨p0, p1, tail, hs⟩ := list_two poly.points.as_ref (by rwa [Polygon.len] at hl)
      rw [flip_rotate_eq poly p0 p1 tail h hs] at hok
      simp only [Except.ok.injEq] at hok
      subst hok
      refine ⟨rfl, ?_, by simp [Polygon.new, Cow.isOwned]⟩
      simp only [Polygon.len, hs]
      simp [Polygon.new, Cow.as_ref]
  · intro hok
    by_cases hl : poly.len < 2
    · rw [flip_reflect_short poly h hl] at hok
      exact absurd hok (by simp)
    · push_neg at hl
      obtain ⟨p0, p1, tail, hs⟩ := list_two poly.points.as_ref (by rwa [Polygon.len] at hl)
      rw [flip_reflect_red poly p0 p1 tail h hs] at hok
      cases hm : mapExcept (reflectStep p0 (Point.sub p1 p0)) tail with
      | error e =>
        rw [hm] at hok
        exact absurd hok (by simp)
      | ok tl =>
        rw [hm] at hok
        simp only [Except.ok.injEq] at hok
        subst hok
        refine ⟨rfl, ?_, by simp [Polygon.new, Cow.isOwned]⟩
        simp only [Polygon.len, hs]
        simp [Polygon.new, Cow.as_ref, mapExcept_ok_length _ _ _ hm]
  · intro hok
    by_cases hl : poly.len < 3
    · rw [reorient_short poly h hl] at hok
      exact absurd hok (by simp)
    · push_neg at hl
      obtain ⟨p0, p1, p2, tail, hs⟩ :=
        list_three poly.points.as_ref (by rwa [Polygon.len] at hl)
      by_cases hz : (Vect.mul (Point.sub p1 p0).neg (Point.sub p2 p1)).is_zero
      · rw [reorient_error_unit_zero poly p0 p1 p2 tail h hs hz] at hok
        exact absurd hok (by simp)
      · rw [reorient_error_oob poly p0 p1 p2 tail h hs hz] at hok
        exact absurd hok (by simp)

lemma reflectVal_tri : reflectVal ⟨0, 0⟩ (Point.sub ⟨1, 0⟩ ⟨0, 0⟩) ⟨1, 1⟩ = ⟨0, -2⟩ := by
  simp only [reflectVal, ontoVal, Point.sub, Vect.norm, Vect.dot, Vect.div, Vect.smul,
    Vect.sub, Point.subVect]
  norm_num [Point.mk.injEq, Real.sqrt_one]

lemma reflectVal_tri2 : reflectVal ⟨0, 0⟩ (Point.sub ⟨1, 0⟩ ⟨0, 0⟩) ⟨0, -2⟩ = ⟨0, 4⟩ := by
  simp only [reflectVal, ontoVal, Point.sub, Vect.norm, Vect.dot, Vect.div, Vect.smul,
    Vect.sub, Point.subVect]
  norm_num [Point.mk.injEq, Real.sqrt_one]

lemma vect_pos_of_ne_zero (v : Vect) (h : ¬ v.is_zero) : 0 < v.x * v.x + v.y * v.y := by
  rcases not_and_or.mp h with h1 | h1
  · have : 0 < v.x * v.x := mul_self_pos.mpr h1
    nlinarith [mul_self_nonneg v.y]
  · have : 0 < v.y * v.y := mul_self_pos.mpr h1
    nlinarith [mul_self_nonneg v.x]

/-- Applying the flip_reflect loop body twice multiplies the component of
the displacement perpendicular to onto by 4 and rescales the onto
component, instead of restoring the displacement. -/
lemma reflectVal_reflectVal (p0 : Point) (axis : Vect) (p : Point)
    (hax : ¬ axis.is_zero) :
    reflectVal p0 axis (reflectVal p0 axis p) =
      Point.add p0 (Vect.add
        (Vect.smul 4 ((Point.sub p p0).sub (ontoVal (Point.sub p p0) axis)))
        (Vect.smul (4 * (axis.norm - 1)) (ontoVal (Point.sub p p0) axis))) := by
  obtain ⟨ax, ay⟩ := axis
  obtain ⟨px, py⟩ := p
  obtain ⟨qx, qy⟩ := p0
  have hpos : 0 < ax * ax + ay * ay := vect_pos_of_ne_zero ⟨ax, ay⟩ hax
  simp only [reflectVal, ontoVal, Vect.norm, Vect.dot, Vect.div, Vect.smul, Vect.sub,
    Vect.add, Point.sub, Point.subVect, Point.add, Point.mk.injEq]
  set n := Real.sqrt (ax * ax + ay * ay) with hn
  have hn2 : n * n = ax * ax + ay * ay := Real.mul_self_sqrt hpos.le
  have hn0 : n ≠ 0 := by
    rw [hn]
    exact ne_of_gt (Real.sqrt_pos.mpr hpos)
  constructor
  · field_simp
    linear_combination (-4 * n ^ 2 * ax * ((px - qx) * ax + (py - qy) * ay)) * hn2
  · field_simp
    linear_combination (-4 * n ^ 2 * ay * ((px - qx) * ax + (py - qy) * ay)) * hn2

/-- C10 witness: flip_rotate on the triangle succeeds and the result has
orientation 0, the same vertex count and owned storage. -/
theorem c10_success_invariants_witness :
    (Polygon.new (Cow.owned [⟨0, 0⟩, ⟨1, 0⟩, ⟨0, -1⟩])).orientation = 0 ∧
      (Polygon.new (Cow.owned [⟨0, 0⟩, ⟨1, 0⟩, ⟨0, -1⟩])).len = tri.len ∧
      (Polygon.new (Cow.owned [⟨0, 0⟩, ⟨1, 0⟩, ⟨0, -1⟩])).points.isOwned := by
  have h : tri.orientation ≤ tri.len := by
    simp [tri, Polygon.new, Polygon.len, Cow.as_ref]
  have hok : Polygon.flip_rotate tri = .ok (Polygon.new (Cow.owned [⟨0, 0⟩, ⟨1, 0⟩, ⟨0, -1⟩])) := by
    rw [flip_rotate_eq tri ⟨0, 0⟩ ⟨1, 0⟩ [⟨1, 1⟩] h rfl]
    norm_num [Point.sub, Point.subVect, Point.mk.injEq, Polygon.new]
  exact (c10_success_invariants tri (Polygon.new (Cow.owned [⟨0, 0⟩, ⟨1, 0⟩, ⟨0, -1⟩])) h).1 hok

/-- C6 counterexample: on the triangle (0,0), (1,0), (1,1) the tail
vertex (1,1) is mapped to (0,-2), but the mirror image of (1,1) across
the line through (0,0) and (1,0) (the x-axis) is (1,-1). -/
theorem c6_result_is_not_mirror_image :
    Polygon.flip_reflect tri =
        .ok (Polygon.new (Cow.owned [⟨0, 0⟩, ⟨1, 0⟩, ⟨0, -2⟩])) ∧
      (Point.mk 0 (-2)) ≠ ⟨1, -1⟩ := by
  constructor
  · rw [flip_reflect_eq tri ⟨0, 0⟩ ⟨1, 0⟩ [⟨1, 1⟩]
      (by simp [tri, Polygon.new, Polygon.len, Cow.as_ref]) rfl
      (by norm_num [Point.sub, Vect.is_zero])]
    rw [List.map_cons, List.map_nil, reflectVal_tri]
  · intro hcontra
    simp only [Point.mk.injEq] at hcontra
    norm_num at hcontra

/-- C6 amended: for every polygon whose stored vertex list starts with two
distinct points p0, p1, flip_reflect keeps p0 and p1 and replaces each
later stored vertex p by p0 - 2 * ((p - p0) - (p - p0).onto(p1 - p0)).
By the counterexample this value is in general not the mirror image of p
across the line through p0 and p1. -/
theorem c6_reflect_formula (poly : Polygon) (p0 p1 : Point) (tail : List Point)
    (h : poly.orientation ≤ poly.len)
    (hs : poly.points.as_ref = p0 :: p1 :: tail)
    (hax : ¬ (Point.sub p1 p0).is_zero) :
    poly.flip_reflect = .ok (Polygon.new (Cow.owned
      (p0 :: p1 :: tail.map (reflectVal p0 (Point.sub p1 p0))))) :=
  flip_reflect_eq poly p0 p1 tail h hs hax

/-- C6 witness: the formula theorem applied to the triangle. -/
theorem c6_reflect_formula_witness :
    Polygon.flip_reflect tri = .ok (Polygon.new (Cow.owned
      (⟨0, 0⟩ :: ⟨1, 0⟩ ::
        List.map (reflectVal ⟨0, 0⟩ (Point.sub ⟨1, 0⟩ ⟨0, 0⟩)) [⟨1, 1⟩]))) :=
  c6_reflect_formula tri ⟨0, 0⟩ ⟨1, 0⟩ [⟨1, 1⟩]
    (by simp [tri, Polygon.new, Polygon.len, Cow.as_ref]) rfl
    (by norm_num [Point.sub, Vect.is_zero])

/-- C7 counterexample: applying flip_reflect twice to the triangle
(0,0), (1,0), (1,1) yields the tail vertex (0,4), which differs from the
original tail vertex (1,1): the double application does not restore the
tail. -/
theorem c7_double_application_moves_tail :
    flipReflectTwice tri =
        .ok (Polygon.new (Cow.owned [⟨0, 0⟩, ⟨1, 0⟩, ⟨0, 4⟩])) ∧
      (Point.mk 0 4) ≠ ⟨1, 1⟩ := by
  have h1 : Polygon.flip_reflect tri =
      .ok (Polygon.new (Cow.owned [⟨0, 0⟩, ⟨1, 0⟩, ⟨0, -2⟩])) := by
    rw [flip_reflect_eq tri ⟨0, 0⟩ ⟨1, 0⟩ [⟨1, 1⟩]
      (by simp [tri, Polygon.new, Polygon.len, Cow.as_ref]) rfl
      (by norm_num [Point.sub, Vect.is_zero])]
    rw [List.map_cons, List.map_nil, reflectVal_tri]
  have h2 : Polygon.flip_reflect (Polygon.new (Cow.owned [⟨0, 0⟩, ⟨1, 0⟩, ⟨0, -2⟩])) =
      .ok (Polygon.new (Cow.owned [⟨0, 0⟩, ⟨1, 0⟩, ⟨0, 4⟩])) := by
    rw [flip_reflect_eq (Polygon.new (Cow.owned [⟨0, 0⟩, ⟨1, 0⟩, ⟨0, -2⟩]))
      ⟨0, 0⟩ ⟨1, 0⟩ [⟨0, -2⟩]
      (by simp [Polygon.new, Polygon.len, Cow.as_ref]) rfl
      (by norm_num [Point.sub, Vect.is_zero])]
    rw [List.map_cons, List.map_nil, reflectVal_tri2]
  constructor
  · simp only [flipReflectTwice, h1, h2]
  · intro hcontra
    simp only [Point.mk.injEq] at hcontra
    norm_num at hcontra

/-- C7 amended: for every polygon whose stored vertex list starts with two
distinct points p0, p1, applying flip_reflect twice maps each later
stored vertex p with displacement v = p - p0 to
p0 + 4 * (v - v.onto(axis)) + 4 * (norm(axis) - 1) * v.onto(axis), with
axis = p1 - p0, rather than restoring p: flip_reflect is not an
involution. -/
theorem c7_flip_reflect_not_involution (poly : Polygon) (p0 p1 : Point)
    (tail : List Point)
    (h : poly.orientation ≤ poly.len)
    (hs : poly.points.as_ref = p0 :: p1 :: tail)
    (hax : ¬ (Point.sub p1 p0).is_zero) :
    flipReflectTwice poly = .ok (Polygon.new (Cow.owned
      (p0 :: p1 :: tail.map fun p =>
        Point.add p0 (Vect.add
          (Vect.smul 4 ((Point.sub p p0).sub
            (ontoVal (Point.sub p p0) (Point.sub p1 p0))))
          (Vect.smul (4 * ((Point.sub p1 p0).norm - 1))
            (ontoVal (Point.sub p p0) (Point.sub p1 p0))))))) := by
  have h1 := flip_reflect_eq poly p0 p1 tail h hs hax
  have h2 := flip_reflect_eq (Polygon.new (Cow.owned
      (p0 :: p1 :: tail.map (reflectVal p0 (Point.sub p1 p0)))))
    p0 p1 (tail.map (reflectVal p0 (Point.sub p1 p0)))
    (by simp [Polygon.new, Polygon.len, Cow.as_ref]) rfl hax
  simp only [flipReflectTwice, h1, h2, List.map_map]
  have hfun : ∀ p : Point,
      (reflectVal p0 (Point.sub p1 p0) ∘ reflectVal p0 (Point.sub p1 p0)) p =
        Point.add p0 (Vect.add
          (Vect.smul 4 ((Point.sub p p0).sub
            (ontoVal (Point.sub p p0) (Point.sub p1 p0))))
          (Vect.smul (4 * ((Point.sub p1 p0).norm - 1))
            (ontoVal (Point.sub p p0) (Point.sub p1 p0)))) :=
    fun p => reflectVal_reflectVal p0 (Point.sub p1 p0) p hax
  rw [List.map_congr_left fun p _ => hfun p]

/-- C7 witness: the double-application theorem applied to the triangle. -/
theorem c7_flip_reflect_not_involution_witness :
    flipReflectTwice tri = .ok (Polygon.new (Cow.owned
      (⟨0, 0⟩ :: ⟨1, 0⟩ :: List.map (fun p =>
        Point.add ⟨0, 0⟩ (Vect.add
          (Vect.smul 4 ((Point.sub p ⟨0, 0⟩).sub
            (ontoVal (Point.sub p ⟨0, 0⟩) (Point.sub ⟨1, 0⟩ ⟨0, 0⟩))))
          (Vect.smul (4 * ((Point.sub ⟨1, 0⟩ ⟨0, 0⟩).norm - 1))
            (ontoVal (Point.sub p ⟨0, 0⟩) (Point.sub ⟨1, 0⟩ ⟨0, 0⟩)))))
        [⟨1, 1⟩]))) :=
  c7_flip_reflect_not_involution tri ⟨0, 0⟩ ⟨1, 0⟩ [⟨1, 1⟩]
    (by simp [tri, Polygon.new, Polygon.len, Cow.as_ref]) rfl
    (by norm_num [Point.sub, Vect.is_zero])

end

end Hedra
